import Mathlib

/-!
Shallow embedding of the ChatPulse client-side authentication core
(`src/contexts/AuthContext.jsx`, here `src/unnamed/part_005`, together with
the OAuth callback page `src/frontend/src/pages/GoogleCallback.jsx`, the
login page call site `src/frontend/src/pages/Login.jsx` and the app shell
`App.jsx` / `main.jsx`).

The mutable client state manipulated by the auth core consists of exactly
four cells:
  * `localStorage['token']`                      — the persisted credential;
  * `api.defaults.headers.common['Authorization']` — the Transport's attached
    bearer header;
  * the React state `user`                       — the published profile;
  * the React state `loading`                    — the startup gate.

Every network response is a parameter (a `Backend` record of response
functions), so theorems quantify over all backend behaviours including
transport failure (`ApiResult.err none`) and backend-supplied error details
(`ApiResult.err (some detail)`).  Each operation returns the value its JS
promise resolves to (`Option JsResult`, `none` modelling `undefined`), the
successor client state, and the list of HTTP requests it issued.
-/

namespace ChatPulse

/-- The user profile object returned by `GET /auth/me` and embedded in the
OAuth callback response.  Only the fields the claims mention are modelled. -/
structure UserProfile where
  id : Nat
  email : String
  username : String
  deriving Repr, DecidableEq

/-- The four mutable client-side cells touched by the auth core. -/
structure ClientState where
  persistedToken : Option String
  authHeader : Option String
  user : Option UserProfile
  loading : Bool
  deriving Repr, DecidableEq

/-- Client state at application start: `localStorage` may hold a token from a
previous session, no header is attached yet, `useState(null)` for the user and
`useState(true)` for the loading gate. -/
def initialState (persisted : Option String) : ClientState :=
  { persistedToken := persisted, authHeader := none, user := none, loading := true }

/-- The fully unauthenticated, settled state (after bootstrap with no
persisted credential). -/
def unauthState : ClientState :=
  { persistedToken := none, authHeader := none, user := none, loading := false }

/-- Outcome of one axios call: `ok data` for a 2xx response with parsed body,
`err detail` for a rejection, where `detail` models
`error.response?.data?.detail` (absent on network failures). -/
inductive ApiResult (α : Type) where
  | ok (data : α)
  | err (detail : Option String)
  deriving Repr

/-- Body of a successful `POST /auth/login`. -/
structure LoginData where
  access_token : String
  deriving Repr, DecidableEq

/-- Body of a successful `GET /auth/google/google/callback`. -/
structure GoogleCallbackData where
  access_token : String
  user : UserProfile
  is_new_user : Bool
  deriving Repr, DecidableEq

/-- Body of a successful `POST /auth/send-verification` or
`POST /auth/forgot-password`. -/
structure MessageData where
  message : String
  email_sent : Bool
  deriving Repr, DecidableEq

/-- Body of a successful `POST /auth/verify-code`. -/
structure VerifyData where
  message : String
  verified : Bool
  deriving Repr, DecidableEq

/-- Body of a successful `POST /auth/signup-with-verification`. -/
structure SignupData where
  message : String
  user : UserProfile
  deriving Repr, DecidableEq

/-- Body of a successful `POST /auth/reset-password`. -/
structure ResetData where
  message : String
  deriving Repr, DecidableEq

/-- Body of a successful `GET /auth/verify-reset-token/{token}`. -/
structure TokenCheckData where
  valid : Bool
  email : String
  deriving Repr, DecidableEq

/-- The backend, modelled as one response function per endpoint.  `meResp`
receives the currently attached `Authorization` header, since that is the only
client datum `GET /auth/me` depends on. -/
structure Backend where
  loginResp : String → String → ApiResult LoginData
  meResp : Option String → ApiResult UserProfile
  googleCallbackResp : Option String → Option String → ApiResult GoogleCallbackData
  registerResp : String → ApiResult Unit
  sendVerificationResp : String → ApiResult MessageData
  verifyCodeResp : String → String → ApiResult VerifyData
  signupResp : String → ApiResult SignupData
  forgotPasswordResp : String → ApiResult MessageData
  resetPasswordResp : String → String → ApiResult ResetData
  verifyResetTokenResp : String → ApiResult TokenCheckData

/-- One HTTP request issued by the auth core, tagged with its endpoint. -/
inductive Request where
  | postLogin (email password : String)
  | getMe
  | getGoogleCallback (code st : Option String)
  | postRegister (userData : String)
  | postSendVerification (email : String)
  | postVerifyCode (email code : String)
  | postSignupWithVerification (userData : String)
  | postForgotPassword (email : String)
  | postResetPassword (token newPassword : String)
  | getVerifyResetToken (token : String)
  deriving Repr, DecidableEq

/-- The object a flow's promise resolves with.  Fields not set by a given
flow stay `none`, mirroring absent JS object properties. -/
structure JsResult where
  success : Bool
  error : Option String := none
  user : Option UserProfile := none
  is_new_user : Option Bool := none
  message : Option String := none
  email_sent : Option Bool := none
  verified : Option Bool := none
  valid : Option Bool := none
  email : Option String := none
  deriving Repr, DecidableEq

/-- JavaScript `detail || fallback`: the fallback is used when the detail is
absent or the empty string (both falsy). -/
def jsOr (detail : Option String) (fallback : String) : String :=
  match detail with
  | some d => if d = "" then fallback else d
  | none => fallback

/-- `fetchUser` from `AuthContext.jsx`: `GET /auth/me`; on success publish the
profile; on failure remove the persisted token and detach the header (the
catch block swallows the error — the caller never observes it); in both cases
the `finally` block releases the loading gate.  Resolves `undefined`. -/
def fetchUser (b : Backend) (s : ClientState) : ClientState × List Request :=
  match b.meResp s.authHeader with
  | ApiResult.ok profile =>
      ({ s with user := some profile, loading := false }, [Request.getMe])
  | ApiResult.err _ =>
      ({ s with persistedToken := none, authHeader := none, loading := false },
       [Request.getMe])

/-- The mount effect of `AuthProvider`: read `localStorage['token']`; if
present attach `Bearer <token>` and run `fetchUser`, otherwise release the
loading gate immediately.  No result value and no error channel exist — the
effect surfaces nothing to the user. -/
def bootstrap (b : Backend) (s : ClientState) : ClientState × List Request :=
  match s.persistedToken with
  | some token => fetchUser b { s with authHeader := some ("Bearer " ++ token) }
  | none => ({ s with loading := false }, [])

/-- `login(email, password)`: `POST /auth/login`; on success persist the
token, attach the header, `await fetchUser()` (whose failure is invisible
here), and resolve `{success: true}`; on rejection resolve
`{success: false, error: detail || 'Login failed'}`. -/
def login (b : Backend) (email password : String) (s : ClientState) :
    Option JsResult × ClientState × List Request :=
  match b.loginResp email password with
  | ApiResult.ok d =>
      let s1 : ClientState :=
        { s with persistedToken := some d.access_token,
                 authHeader := some ("Bearer " ++ d.access_token) }
      let fu := fetchUser b s1
      (some { success := true }, fu.1, Request.postLogin email password :: fu.2)
  | ApiResult.err detail =>
      (some { success := false, error := some (jsOr detail "Login failed") }, s,
       [Request.postLogin email password])

/-- `loginWithGoogle()`: assigns `window.location.href` (a browser
navigation, not an `api` request) and falls off the end of the `try` block,
so the promise resolves `undefined` (`none`); the catch branch is
unreachable.  Client state is untouched. -/
def loginWithGoogle (s : ClientState) :
    Option JsResult × ClientState × List Request :=
  (none, s, [])

/-- `handleGoogleCallback(code, state)`: `GET /auth/google/google/callback`
with `code` and `state` as query params; on success persist the returned
token, attach the header, publish the inline profile, and resolve
`{success: true, user, is_new_user}`; on rejection resolve the discriminated
failure.  No other request is issued. -/
def handleGoogleCallback (b : Backend) (code st : Option String)
    (s : ClientState) : Option JsResult × ClientState × List Request :=
  match b.googleCallbackResp code st with
  | ApiResult.ok d =>
      (some { success := true, user := some d.user, is_new_user := some d.is_new_user },
       { s with persistedToken := some d.access_token,
                authHeader := some ("Bearer " ++ d.access_token),
                user := some d.user },
       [Request.getGoogleCallback code st])
  | ApiResult.err detail =>
      (some { success := false,
              error := some (jsOr detail "Google authentication failed") }, s,
       [Request.getGoogleCallback code st])

/-- `register(userData)`: `POST /auth/register`; the response body is
discarded; client state is untouched on both paths. -/
def register (b : Backend) (userData : String) (s : ClientState) :
    Option JsResult × ClientState × List Request :=
  match b.registerResp userData with
  | ApiResult.ok _ =>
      (some { success := true }, s, [Request.postRegister userData])
  | ApiResult.err detail =>
      (some { success := false, error := some (jsOr detail "Registration failed") },
       s, [Request.postRegister userData])

/-- `sendVerificationCode(email)`: `POST /auth/send-verification`. -/
def sendVerificationCode (b : Backend) (email : String) (s : ClientState) :
    Option JsResult × ClientState × List Request :=
  match b.sendVerificationResp email with
  | ApiResult.ok d =>
      (some { success := true, message := some d.message,
              email_sent := some d.email_sent }, s,
       [Request.postSendVerification email])
  | ApiResult.err detail =>
      (some { success := false,
              error := some (jsOr detail "Failed to send verification code") }, s,
       [Request.postSendVerification email])

/-- `verifyCode(email, code)`: `POST /auth/verify-code`. -/
def verifyCode (b : Backend) (email code : String) (s : ClientState) :
    Option JsResult × ClientState × List Request :=
  match b.verifyCodeResp email code with
  | ApiResult.ok d =>
      (some { success := true, message := some d.message,
              verified := some d.verified }, s,
       [Request.postVerifyCode email code])
  | ApiResult.err detail =>
      (some { success := false,
              error := some (jsOr detail "Invalid verification code") }, s,
       [Request.postVerifyCode email code])

/-- `signupWithVerification(userData)`: `POST /auth/signup-with-verification`.
The returned account object is relayed in the result but never published to
the session. -/
def signupWithVerification (b : Backend) (userData : String) (s : ClientState) :
    Option JsResult × ClientState × List Request :=
  match b.signupResp userData with
  | ApiResult.ok d =>
      (some { success := true, message := some d.message, user := some d.user },
       s, [Request.postSignupWithVerification userData])
  | ApiResult.err detail =>
      (some { success := false, error := some (jsOr detail "Signup failed") }, s,
       [Request.postSignupWithVerification userData])

/-- `forgotPassword(email)`: `POST /auth/forgot-password`. -/
def forgotPassword (b : Backend) (email : String) (s : ClientState) :
    Option JsResult × ClientState × List Request :=
  match b.forgotPasswordResp email with
  | ApiResult.ok d =>
      (some { success := true, message := some d.message,
              email_sent := some d.email_sent }, s,
       [Request.postForgotPassword email])
  | ApiResult.err detail =>
      (some { success := false,
              error := some (jsOr detail "Failed to send reset email") }, s,
       [Request.postForgotPassword email])

/-- `resetPassword(token, newPassword)`: `POST /auth/reset-password`. -/
def resetPassword (b : Backend) (token newPassword : String) (s : ClientState) :
    Option JsResult × ClientState × List Request :=
  match b.resetPasswordResp token newPassword with
  | ApiResult.ok d =>
      (some { success := true, message := some d.message }, s,
       [Request.postResetPassword token newPassword])
  | ApiResult.err detail =>
      (some { success := false,
              error := some (jsOr detail "Failed to reset password") }, s,
       [Request.postResetPassword token newPassword])

/-- `verifyResetToken(token)`: `GET /auth/verify-reset-token/{token}`. -/
def verifyResetToken (b : Backend) (token : String) (s : ClientState) :
    Option JsResult × ClientState × List Request :=
  match b.verifyResetTokenResp token with
  | ApiResult.ok d =>
      (some { success := true, valid := some d.valid, email := some d.email },
       s, [Request.getVerifyResetToken token])
  | ApiResult.err detail =>
      (some { success := false, error := some (jsOr detail "Invalid token") }, s,
       [Request.getVerifyResetToken token])

/-- `logout()`: synchronous — remove the persisted token, detach the header,
clear the published user.  It issues no request and has no failure path. -/
def logout (s : ClientState) : ClientState × List Request :=
  ({ s with persistedToken := none, authHeader := none, user := none }, [])

/-- The call site in `Login.jsx`:
`login(data.email, data.password, data.rememberMe)`.  The `login` function in
`AuthContext.jsx` declares only two parameters, so by JavaScript semantics the
third argument is ignored entirely. -/
def loginSubmit (b : Backend) (email password : String) (_rememberMe : Bool)
    (s : ClientState) : Option JsResult × ClientState × List Request :=
  login b email password s

/-- Where the OAuth callback page navigates after handling. -/
inductive NavTarget where
  | dashboard
  | login
  deriving Repr, DecidableEq

/-- A user-visible toast notification. -/
inductive Toast where
  | ok (msg : String)
  | err (msg : String)
  deriving Repr, DecidableEq

/-- Everything observable about one run of the `GoogleCallback` page effect. -/
structure PageOutcome where
  finalState : ClientState
  requests : List Request
  nav : NavTarget
  toasts : List Toast
  deriving Repr, DecidableEq

/-- JavaScript truthiness of `searchParams.get('code')`: `null` and the empty
string are falsy. -/
def jsTruthyStr (x : Option String) : Bool :=
  match x with
  | some v => !(v == "")
  | none => false

/-- The success toast of the callback page, chosen by the truthiness of
`result.is_new_user`. -/
def welcomeMsg (isNew : Option Bool) : String :=
  match isNew with
  | some true => "Welcome to ChatPulse!"
  | _ => "Welcome back!"

/-- The `GoogleCallback` page effect: if `code` is truthy, await
`handleGoogleCallback(code, state)` and navigate to `/dashboard` on a success
result or back to `/login` with an error toast otherwise (the catch branch
fires when the result is not an object); if `code` is absent, toast
`Authorization failed` and navigate to `/login` without calling anything. -/
def googleCallbackPage (b : Backend) (code st : Option String)
    (s : ClientState) : PageOutcome :=
  if jsTruthyStr code then
    let h := handleGoogleCallback b code st s
    match h.1 with
    | some r =>
        if r.success then
          { finalState := h.2.1, requests := h.2.2, nav := NavTarget.dashboard,
            toasts := [Toast.ok (welcomeMsg r.is_new_user)] }
        else
          { finalState := h.2.1, requests := h.2.2, nav := NavTarget.login,
            toasts := [Toast.err (r.error.getD "")] }
    | none =>
        { finalState := h.2.1, requests := h.2.2, nav := NavTarget.login,
          toasts := [Toast.err "Authentication failed"] }
  else
    { finalState := s, requests := [], nav := NavTarget.login,
      toasts := [Toast.err "Authorization failed"] }

/-- One invocation of an auth-core operation, for reachability reasoning. -/
inductive Op where
  | login (email password : String)
  | loginWithGoogle
  | googleCallback (code st : Option String)
  | register (userData : String)
  | sendVerification (email : String)
  | verifyCode (email code : String)
  | signup (userData : String)
  | forgotPassword (email : String)
  | resetPassword (token pw : String)
  | verifyResetToken (token : String)
  | logout
  deriving Repr

/-- The client-state transition of one completed operation against backend
`b`. -/
def step (b : Backend) (o : Op) (s : ClientState) : ClientState :=
  match o with
  | Op.login e p => (login b e p s).2.1
  | Op.loginWithGoogle => (loginWithGoogle s).2.1
  | Op.googleCallback c st => (handleGoogleCallback b c st s).2.1
  | Op.register ud => (register b ud s).2.1
  | Op.sendVerification em => (sendVerificationCode b em s).2.1
  | Op.verifyCode em cd => (verifyCode b em cd s).2.1
  | Op.signup ud => (signupWithVerification b ud s).2.1
  | Op.forgotPassword em => (forgotPassword b em s).2.1
  | Op.resetPassword tk pw => (resetPassword b tk pw s).2.1
  | Op.verifyResetToken tk => (verifyResetToken b tk s).2.1
  | Op.logout => (logout s).1

/-- Run a sequence of completed operations; the backend may behave
differently at each step. -/
def run (steps : List (Backend × Op)) (s : ClientState) : ClientState :=
  steps.foldl (fun st x => step x.1 x.2 st) s

/-- The part of the session-store invariant the code actually maintains: the
attached Transport header always mirrors the persisted credential, and a
persisted credential is never held without a published profile. -/
def storeInv (s : ClientState) : Prop :=
  s.authHeader = s.persistedToken.map (fun t => "Bearer " ++ t)
  ∧ (s.persistedToken.isSome → s.user.isSome)

/-- The uniform discriminated-result contract: the promise resolves with an
object that is either `{success: true, ...}` or `{success: false, error}`
with a nonempty error string. -/
def uniformResult (r : Option JsResult) : Prop :=
  ∃ jr, r = some jr ∧
    (jr.success = true ∨ (jr.success = false ∧ ∃ msg, jr.error = some msg ∧ msg ≠ ""))

/-- The data part of the context value published by `AuthProvider` (the
function members close over the same state and are modelled separately
above). -/
structure AuthContextValue where
  user : Option UserProfile
  loading : Bool
  deriving Repr, DecidableEq

/-- What a React hook invocation does: return a value or throw. -/
inductive HookOutcome (α : Type) where
  | ret (value : α)
  | thrown (message : String)
  deriving Repr

/-- `useAuth()`: read the context; the provider-less default of
`createContext()` is `undefined` (`none`), which is falsy, so the hook
throws; under a provider the value is an object (always truthy) and is
returned. -/
def useAuth (context : Option AuthContextValue) : HookOutcome AuthContextValue :=
  match context with
  | none => HookOutcome.thrown "useAuth must be used within an AuthProvider"
  | some v => HookOutcome.ret v

/-- A sample profile for concrete evaluations. -/
def profileA : UserProfile := { id := 1, email := "a@x.com", username := "alice" }

/-- A backend that rejects every request without a detail string (pure
transport failure). -/
def trivialBackend : Backend :=
  { loginResp := fun _ _ => ApiResult.err none,
    meResp := fun _ => ApiResult.err none,
    googleCallbackResp := fun _ _ => ApiResult.err none,
    registerResp := fun _ => ApiResult.err none,
    sendVerificationResp := fun _ => ApiResult.err none,
    verifyCodeResp := fun _ _ => ApiResult.err none,
    signupResp := fun _ => ApiResult.err none,
    forgotPasswordResp := fun _ => ApiResult.err none,
    resetPasswordResp := fun _ _ => ApiResult.err none,
    verifyResetTokenResp := fun _ => ApiResult.err none }

/-- A backend that accepts the login and serves the profile fetch. -/
def backendLoginOk : Backend :=
  { trivialBackend with
    loginResp := fun _ _ => ApiResult.ok { access_token := "tok1" },
    meResp := fun _ => ApiResult.ok profileA }

/-- A backend that accepts the login but rejects the subsequent profile
fetch. -/
def backendMeFails : Backend :=
  { trivialBackend with
    loginResp := fun _ _ => ApiResult.ok { access_token := "tok2" },
    meResp := fun _ => ApiResult.err none }

/-- A backend that serves the profile fetch (for bootstrap witnesses). -/
def backendMeOk : Backend :=
  { trivialBackend with meResp := fun _ => ApiResult.ok profileA }

/-- A backend that accepts the OAuth code exchange. -/
def backendCbOk : Backend :=
  { trivialBackend with
    googleCallbackResp := fun _ _ =>
      ApiResult.ok { access_token := "tokg", user := profileA, is_new_user := true } }

/-- A backend that rejects the login with a detail string. -/
def backendLoginErr : Backend :=
  { trivialBackend with loginResp := fun _ _ => ApiResult.err (some "Invalid credentials") }

/-! ### Helper lemmas -/

theorem jsOr_ne_empty (d : Option String) (f : String) (hf : f ≠ "") :
    jsOr d f ≠ "" := by
  cases d with
  | none => simpa [jsOr] using hf
  | some x =>
      by_cases hx : x = ""
      · subst hx
        simpa [jsOr] using hf
      · simp [jsOr, hx]

theorem register_state (b : Backend) (ud : String) (s : ClientState) :
    (register b ud s).2.1 = s := by
  cases h : b.registerResp ud <;> simp [register, h]

theorem sendVerificationCode_state (b : Backend) (em : String) (s : ClientState) :
    (sendVerificationCode b em s).2.1 = s := by
  cases h : b.sendVerificationResp em <;> simp [sendVerificationCode, h]

theorem verifyCode_state (b : Backend) (em cd : String) (s : ClientState) :
    (verifyCode b em cd s).2.1 = s := by
  cases h : b.verifyCodeResp em cd <;> simp [verifyCode, h]

theorem signupWithVerification_state (b : Backend) (ud : String) (s : ClientState) :
    (signupWithVerification b ud s).2.1 = s := by
  cases h : b.signupResp ud <;> simp [signupWithVerification, h]

theorem forgotPassword_state (b : Backend) (em : String) (s : ClientState) :
    (forgotPassword b em s).2.1 = s := by
  cases h : b.forgotPasswordResp em <;> simp [forgotPassword, h]

theorem resetPassword_state (b : Backend) (tk pw : String) (s : ClientState) :
    (resetPassword b tk pw s).2.1 = s := by
  cases h : b.resetPasswordResp tk pw <;> simp [resetPassword, h]

theorem verifyResetToken_state (b : Backend) (tk : String) (s : ClientState) :
    (verifyResetToken b tk s).2.1 = s := by
  cases h : b.verifyResetTokenResp tk <;> simp [verifyResetToken, h]

theorem fetchUser_inv (b : Backend) (s : ClientState)
    (hh : s.authHeader = s.persistedToken.map (fun t => "Bearer " ++ t)) :
    storeInv (fetchUser b s).1 := by
  cases h : b.meResp s.authHeader with
  | ok prof =>
      have e : fetchUser b s =
          ({ s with user := some prof, loading := false }, [Request.getMe]) := by
        simp [fetchUser, h]
      rw [e]
      exact ⟨hh, fun _ => rfl⟩
  | err d =>
      have e : fetchUser b s =
          ({ s with persistedToken := none, authHeader := none, loading := false },
           [Request.getMe]) := by
        simp [fetchUser, h]
      rw [e]
      exact ⟨rfl, fun hc => by simp at hc⟩

theorem bootstrap_inv (b : Backend) (t0 : Option String) :
    storeInv (bootstrap b (initialState t0)).1 := by
  cases t0 with
  | none =>
      refine ⟨rfl, fun hc => ?_⟩
      simp [bootstrap, initialState] at hc
  | some t =>
      exact fetchUser_inv b _ (by simp [initialState])

theorem step_inv (b : Backend) (o : Op) (s : ClientState) (hs : storeInv s) :
    storeInv (step b o s) := by
  cases o with
  | login e p =>
      show storeInv (login b e p s).2.1
      cases h : b.loginResp e p with
      | ok d =>
          have : (login b e p s).2.1 = (fetchUser b
              { s with persistedToken := some d.access_token,
                       authHeader := some ("Bearer " ++ d.access_token) }).1 := by
            simp [login, h]
          rw [this]
          exact fetchUser_inv b _ (by simp)
      | err detail => simpa [login, h] using hs
  | loginWithGoogle => simpa [step, loginWithGoogle] using hs
  | googleCallback c st =>
      show storeInv (handleGoogleCallback b c st s).2.1
      cases h : b.googleCallbackResp c st with
      | ok d =>
          refine ⟨?_, fun _ => ?_⟩ <;> simp [handleGoogleCallback, h]
      | err detail => simpa [handleGoogleCallback, h] using hs
  | register ud => simpa [step, register_state] using hs
  | sendVerification em => simpa [step, sendVerificationCode_state] using hs
  | verifyCode em cd => simpa [step, verifyCode_state] using hs
  | signup ud => simpa [step, signupWithVerification_state] using hs
  | forgotPassword em => simpa [step, forgotPassword_state] using hs
  | resetPassword tk pw => simpa [step, resetPassword_state] using hs
  | verifyResetToken tk => simpa [step, verifyResetToken_state] using hs
  | logout =>
      refine ⟨rfl, fun hc => ?_⟩
      simp [step, logout] at hc

theorem run_inv (steps : List (Backend × Op)) (s : ClientState)
    (hs : storeInv s) : storeInv (run steps s) := by
  induction steps generalizing s with
  | nil => exact hs
  | cons x xs ih => exact ih (step x.1 x.2 s) (step_inv x.1 x.2 s hs)

theorem login_uniform (b : Backend) (e p : String) (s : ClientState) :
    uniformResult (login b e p s).1 := by
  cases h : b.loginResp e p with
  | ok d => exact ⟨{ success := true }, by simp [login, h], Or.inl rfl⟩
  | err detail =>
      exact ⟨{ success := false, error := some (jsOr detail "Login failed") },
        by simp [login, h],
        Or.inr ⟨rfl, jsOr detail "Login failed", rfl,
          jsOr_ne_empty detail _ (by decide)⟩⟩

theorem handleGoogleCallback_uniform (b : Backend) (c st : Option String)
    (s : ClientState) : uniformResult (handleGoogleCallback b c st s).1 := by
  cases h : b.googleCallbackResp c st with
  | ok d =>
      exact ⟨{ success := true, user := some d.user, is_new_user := some d.is_new_user },
        by simp [handleGoogleCallback, h], Or.inl rfl⟩
  | err detail =>
      exact ⟨{ success := false,
               error := some (jsOr detail "Google authentication failed") },
        by simp [handleGoogleCallback, h],
        Or.inr ⟨rfl, jsOr detail "Google authentication failed", rfl,
          jsOr_ne_empty detail _ (by decide)⟩⟩

theorem register_uniform (b : Backend) (ud : String) (s : ClientState) :
    uniformResult (register b ud s).1 := by
  cases h : b.registerResp ud with
  | ok d => exact ⟨{ success := true }, by simp [register, h], Or.inl rfl⟩
  | err detail =>
      exact ⟨{ success := false, error := some (jsOr detail "Registration failed") },
        by simp [register, h],
        Or.inr ⟨rfl, jsOr detail "Registration failed", rfl,
          jsOr_ne_empty detail _ (by decide)⟩⟩

theorem sendVerificationCode_uniform (b : Backend) (em : String) (s : ClientState) :
    uniformResult (sendVerificationCode b em s).1 := by
  cases h : b.sendVerificationResp em with
  | ok d =>
      exact ⟨{ success := true, message := some d.message,
               email_sent := some d.email_sent },
        by simp [sendVerificationCode, h], Or.inl rfl⟩
  | err detail =>
      exact ⟨{ success := false,
               error := some (jsOr detail "Failed to send verification code") },
        by simp [sendVerificationCode, h],
        Or.inr ⟨rfl, jsOr detail "Failed to send verification code", rfl,
          jsOr_ne_empty detail _ (by decide)⟩⟩

theorem verifyCode_uniform (b : Backend) (em cd : String) (s : ClientState) :
    uniformResult (verifyCode b em cd s).1 := by
  cases h : b.verifyCodeResp em cd with
  | ok d =>
      exact ⟨{ success := true, message := some d.message,
               verified := some d.verified },
        by simp [verifyCode, h], Or.inl rfl⟩
  | err detail =>
      exact ⟨{ success := false,
               error := some (jsOr detail "Invalid verification code") },
        by simp [verifyCode, h],
        Or.inr ⟨rfl, jsOr detail "Invalid verification code", rfl,
          jsOr_ne_empty detail _ (by decide)⟩⟩

theorem signupWithVerification_uniform (b : Backend) (ud : String)
    (s : ClientState) : uniformResult (signupWithVerification b ud s).1 := by
  cases h : b.signupResp ud with
  | ok d =>
      exact ⟨{ success := true, message := some d.message, user := some d.user },
        by simp [signupWithVerification, h], Or.inl rfl⟩
  | err detail =>
      exact ⟨{ success := false, error := some (jsOr detail "Signup failed") },
        by simp [signupWithVerification, h],
        Or.inr ⟨rfl, jsOr detail "Signup failed", rfl,
          jsOr_ne_empty detail _ (by decide)⟩⟩

theorem forgotPassword_uniform (b : Backend) (em : String) (s : ClientState) :
    uniformResult (forgotPassword b em s).1 := by
  cases h : b.forgotPasswordResp em with
  | ok d =>
      exact ⟨{ success := true, message := some d.message,
               email_sent := some d.email_sent },
        by simp [forgotPassword, h], Or.inl rfl⟩
  | err detail =>
      exact ⟨{ success := false,
               error := some (jsOr detail "Failed to send reset email") },
        by simp [forgotPassword, h],
        Or.inr ⟨rfl, jsOr detail "Failed to send reset email", rfl,
          jsOr_ne_empty detail _ (by decide)⟩⟩

theorem resetPassword_uniform (b : Backend) (tk pw : String) (s : ClientState) :
    uniformResult (resetPassword b tk pw s).1 := by
  cases h : b.resetPasswordResp tk pw with
  | ok d =>
      exact ⟨{ success := true, message := some d.message },
        by simp [resetPassword, h], Or.inl rfl⟩
  | err detail =>
      exact ⟨{ success := false,
               error := some (jsOr detail "Failed to reset password") },
        by simp [resetPassword, h],
        Or.inr ⟨rfl, jsOr detail "Failed to reset password", rfl,
          jsOr_ne_empty detail _ (by decide)⟩⟩

theorem verifyResetToken_uniform (b : Backend) (tk : String) (s : ClientState) :
    uniformResult (verifyResetToken b tk s).1 := by
  cases h : b.verifyResetTokenResp tk with
  | ok d =>
      exact ⟨{ success := true, valid := some d.valid, email := some d.email },
        by simp [verifyResetToken, h], Or.inl rfl⟩
  | err detail =>
      exact ⟨{ success := false, error := some (jsOr detail "Invalid token") },
        by simp [verifyResetToken, h],
        Or.inr ⟨rfl, jsOr detail "Invalid token", rfl,
          jsOr_ne_empty detail _ (by decide)⟩⟩

/-! ### Claim theorems -/

/-- C1: the code at the failing input.  When `POST /auth/login` succeeds but
the subsequent `GET /auth/me` inside `fetchUser` is rejected, `login` still
resolves `{success: true}` while the resulting client state is fully
unauthenticated: no persisted credential, no attached header, no published
profile — `fetchUser` swallowed the failure instead of surfacing it as a
flow-level error.  The trace shows the profile fetch was indeed issued. -/
theorem login_success_despite_fetch_failure :
    (login backendMeFails "u@x.com" "pw" unauthState).1 = some { success := true }
    ∧ (login backendMeFails "u@x.com" "pw" unauthState).2.1 = unauthState
    ∧ (login backendMeFails "u@x.com" "pw" unauthState).2.2 =
        [Request.postLogin "u@x.com" "pw", Request.getMe] :=
  ⟨rfl, rfl, rfl⟩

/-- C2 counterexample: `loginWithGoogle` does not resolve to a discriminated
result object — its `try` block has no `return`, so on the redirect path the
promise resolves `undefined` (`none`), falsifying the claim for that flow. -/
theorem loginWithGoogle_resolves_undefined :
    (loginWithGoogle unauthState).1 = none
    ∧ ¬ uniformResult (loginWithGoogle unauthState).1 := by
  constructor
  · rfl
  · rintro ⟨jr, hj, _⟩
    simp [loginWithGoogle] at hj

/-- C2 (amended): every flow-level operation except `loginWithGoogle` — for
every input, every backend response and every client state — resolves to
`{success: true, ...}` or `{success: false, error}` with a nonempty error
string, and on a rejection the error is the backend-supplied detail when one
is present and nonempty, and the flow's generic fallback otherwise. -/
theorem auth_flows_uniform (b : Backend) (s : ClientState)
    (e p ud em cd tk pw : String) (c st : Option String) :
    uniformResult (login b e p s).1
    ∧ uniformResult (handleGoogleCallback b c st s).1
    ∧ uniformResult (register b ud s).1
    ∧ uniformResult (sendVerificationCode b em s).1
    ∧ uniformResult (verifyCode b em cd s).1
    ∧ uniformResult (signupWithVerification b ud s).1
    ∧ uniformResult (forgotPassword b em s).1
    ∧ uniformResult (resetPassword b tk pw s).1
    ∧ uniformResult (verifyResetToken b tk s).1
    ∧ (∀ d, b.loginResp e p = ApiResult.err d →
        (login b e p s).1 =
          some { success := false, error := some (jsOr d "Login failed") })
    ∧ (∀ d, b.googleCallbackResp c st = ApiResult.err d →
        (handleGoogleCallback b c st s).1 =
          some { success := false,
                 error := some (jsOr d "Google authentication failed") })
    ∧ (∀ d, b.registerResp ud = ApiResult.err d →
        (register b ud s).1 =
          some { success := false, error := some (jsOr d "Registration failed") })
    ∧ (∀ d, b.sendVerificationResp em = ApiResult.err d →
        (sendVerificationCode b em s).1 =
          some { success := false,
                 error := some (jsOr d "Failed to send verification code") })
    ∧ (∀ d, b.verifyCodeResp em cd = ApiResult.err d →
        (verifyCode b em cd s).1 =
          some { success := false,
                 error := some (jsOr d "Invalid verification code") })
    ∧ (∀ d, b.signupResp ud = ApiResult.err d →
        (signupWithVerification b ud s).1 =
          some { success := false, error := some (jsOr d "Signup failed") })
    ∧ (∀ d, b.forgotPasswordResp em = ApiResult.err d →
        (forgotPassword b em s).1 =
          some { success := false,
                 error := some (jsOr d "Failed to send reset email") })
    ∧ (∀ d, b.resetPasswordResp tk pw = ApiResult.err d →
        (resetPassword b tk pw s).1 =
          some { success := false,
                 error := some (jsOr d "Failed to reset password") })
    ∧ (∀ d, b.verifyResetTokenResp tk = ApiResult.err d →
        (verifyResetToken b tk s).1 =
          some { success := false, error := some (jsOr d "Invalid token") }) := by
  refine ⟨login_uniform b e p s, handleGoogleCallback_uniform b c st s,
    register_uniform b ud s, sendVerificationCode_uniform b em s,
    verifyCode_uniform b em cd s, signupWithVerification_uniform b ud s,
    forgotPassword_uniform b em s, resetPassword_uniform b tk pw s,
    verifyResetToken_uniform b tk s,
    ?_, ?_, ?_, ?_, ?_, ?_, ?_, ?_, ?_⟩
  · intro d h; simp [login, h]
  · intro d h; simp [handleGoogleCallback, h]
  · intro d h; simp [register, h]
  · intro d h; simp [sendVerificationCode, h]
  · intro d h; simp [verifyCode, h]
  · intro d h; simp [signupWithVerification, h]
  · intro d h; simp [forgotPassword, h]
  · intro d h; simp [resetPassword, h]
  · intro d h; simp [verifyResetToken, h]

/-- C2 witness: the amended theorem applied at a login rejected with a
backend detail string. -/
theorem auth_flows_uniform_witness :
    uniformResult (login backendLoginErr "u@x.com" "pw" unauthState).1
    ∧ (login backendLoginErr "u@x.com" "pw" unauthState).1 =
        some { success := false,
               error := some (jsOr (some "Invalid credentials") "Login failed") } := by
  have h := auth_flows_uniform backendLoginErr unauthState
    "u@x.com" "pw" "ud" "em" "cd" "tk" "npw" none none
  exact ⟨h.1, h.2.2.2.2.2.2.2.2.2.1 (some "Invalid credentials") rfl⟩

/-- C3 counterexample: a reachable two-login trace ending with a published
profile and no credential.  Start unauthenticated, log in successfully as
`profileA`, then log in to a second account whose profile fetch is rejected:
`fetchUser` clears the token and header but leaves the previously published
profile in place, so the settled state holds a profile without any
credential — and the rejection did not destroy the whole session. -/
theorem profile_without_credential_reachable :
    (run [(backendLoginOk, Op.login "a@x.com" "pw1"),
          (backendMeFails, Op.login "b@x.com" "pw2")]
        (bootstrap trivialBackend (initialState none)).1).user = some profileA
    ∧ (run [(backendLoginOk, Op.login "a@x.com" "pw1"),
            (backendMeFails, Op.login "b@x.com" "pw2")]
          (bootstrap trivialBackend (initialState none)).1).persistedToken = none
    ∧ (run [(backendLoginOk, Op.login "a@x.com" "pw1"),
            (backendMeFails, Op.login "b@x.com" "pw2")]
          (bootstrap trivialBackend (initialState none)).1).authHeader = none :=
  ⟨rfl, rfl, rfl⟩

/-- C3 (amended): in every state reachable through bootstrap followed by any
sequence of completed operations against arbitrary backends, the attached
header mirrors the persisted credential and a credential is never held
without a published profile; the converse direction fails: a backend
rejection during a profile fetch clears only the persisted and attached
credential and leaves the previously published profile untouched. -/
theorem store_invariant_amended :
    (∀ (t0 : Option String) (b0 : Backend) (steps : List (Backend × Op)),
        storeInv (run steps (bootstrap b0 (initialState t0)).1))
    ∧ (∀ (b : Backend) (s : ClientState) (d : Option String),
        b.meResp s.authHeader = ApiResult.err d →
          (fetchUser b s).1.persistedToken = none
          ∧ (fetchUser b s).1.authHeader = none
          ∧ (fetchUser b s).1.user = s.user) := by
  constructor
  · intro t0 b0 steps
    exact run_inv steps _ (bootstrap_inv b0 t0)
  · intro b s d h
    refine ⟨?_, ?_, ?_⟩ <;> simp [fetchUser, h]

/-- C3 witness: the amended theorem applied at concrete inputs. -/
theorem store_invariant_amended_witness :
    storeInv (run [] (bootstrap trivialBackend (initialState none)).1)
    ∧ (fetchUser backendMeFails unauthState).1.persistedToken = none :=
  ⟨store_invariant_amended.1 none trivialBackend [],
   (store_invariant_amended.2 backendMeFails unauthState none rfl).1⟩

/-- C4: bootstrap with no persisted credential resolves immediately to the
unauthenticated state issuing no request; with a credential it attaches the
header and fetches the profile, publishing the session on success and, on any
fetch failure, clearing the persisted credential and detaching the header and
settling unauthenticated.  The loading gate (initially `true` in
`initialState`) is `false` exactly at resolution, and the return type carries
no error channel — nothing is surfaced to the user. -/
theorem bootstrap_spec (b : Backend) (t : String) (prof : UserProfile) :
    bootstrap b (initialState none) =
      ({ persistedToken := none, authHeader := none, user := none,
         loading := false }, [])
    ∧ (b.meResp (some ("Bearer " ++ t)) = ApiResult.ok prof →
        bootstrap b (initialState (some t)) =
          ({ persistedToken := some t, authHeader := some ("Bearer " ++ t),
             user := some prof, loading := false }, [Request.getMe]))
    ∧ (∀ d, b.meResp (some ("Bearer " ++ t)) = ApiResult.err d →
        bootstrap b (initialState (some t)) =
          ({ persistedToken := none, authHeader := none, user := none,
             loading := false }, [Request.getMe])) := by
  refine ⟨rfl, fun h => ?_, fun d h => ?_⟩
  · simp [bootstrap, initialState, fetchUser, h]
  · simp [bootstrap, initialState, fetchUser, h]

/-- C4 witness: bootstrap against a backend that serves the profile and one
that rejects it. -/
theorem bootstrap_spec_witness :
    bootstrap backendMeOk (initialState (some "tok1")) =
      ({ persistedToken := some "tok1", authHeader := some ("Bearer " ++ "tok1"),
         user := some profileA, loading := false }, [Request.getMe])
    ∧ bootstrap trivialBackend (initialState (some "tok1")) =
      ({ persistedToken := none, authHeader := none, user := none,
         loading := false }, [Request.getMe]) :=
  ⟨(bootstrap_spec backendMeOk "tok1" profileA).2.1 rfl,
   (bootstrap_spec trivialBackend "tok1" profileA).2.2 none rfl⟩

/-- C5: reaching the OAuth callback page with no `code` parameter issues no
request at all, leaves the client state untouched, surfaces a failure toast,
and navigates back to the login view — for every backend, `state` parameter
and starting state. -/
theorem callback_missing_code_no_request (b : Backend) (st : Option String)
    (s : ClientState) :
    googleCallbackPage b none st s =
      { finalState := s, requests := [], nav := NavTarget.login,
        toasts := [Toast.err "Authorization failed"] } := rfl

/-- C6: a successful OAuth completion persists the returned credential,
attaches it to the Transport, publishes the inline profile, resolves
`{success: true, user, is_new_user}`, and the request trace is exactly the
one callback exchange — in particular no `GET /auth/me` is issued. -/
theorem googleCallback_success_spec (b : Backend) (c st : Option String)
    (s : ClientState) (d : GoogleCallbackData)
    (h : b.googleCallbackResp c st = ApiResult.ok d) :
    handleGoogleCallback b c st s =
      (some { success := true, user := some d.user,
              is_new_user := some d.is_new_user },
       { s with persistedToken := some d.access_token,
                authHeader := some ("Bearer " ++ d.access_token),
                user := some d.user },
       [Request.getGoogleCallback c st])
    ∧ Request.getMe ∉ (handleGoogleCallback b c st s).2.2 := by
  constructor
  · simp [handleGoogleCallback, h]
  · simp [handleGoogleCallback, h]

/-- C6 witness: the theorem applied at a concrete successful exchange with
`is_new_user = true`. -/
theorem googleCallback_success_witness :
    handleGoogleCallback backendCbOk (some "abc") (some "xyz") unauthState =
      (some { success := true, user := some profileA, is_new_user := some true },
       { unauthState with persistedToken := some "tokg",
                          authHeader := some ("Bearer " ++ "tokg"),
                          user := some profileA },
       [Request.getGoogleCallback (some "abc") (some "xyz")])
    ∧ Request.getMe ∉
        (handleGoogleCallback backendCbOk (some "abc") (some "xyz") unauthState).2.2 :=
  googleCallback_success_spec backendCbOk (some "abc") (some "xyz") unauthState
    { access_token := "tokg", user := profileA, is_new_user := true } rfl

/-- C7: `logout` issues no request, always yields the fully unauthenticated
state, is idempotent, is a no-op on an already-unauthenticated state, and a
subsequent bootstrap settles unauthenticated with no network call and the
loading gate released. -/
theorem logout_spec (b : Backend) (s : ClientState) :
    (logout s).2 = []
    ∧ (logout s).1.persistedToken = none
    ∧ (logout s).1.authHeader = none
    ∧ (logout s).1.user = none
    ∧ logout (logout s).1 = logout s
    ∧ (s.persistedToken = none → s.authHeader = none → s.user = none →
        (logout s).1 = s)
    ∧ (bootstrap b (logout s).1).1.persistedToken = none
    ∧ (bootstrap b (logout s).1).1.authHeader = none
    ∧ (bootstrap b (logout s).1).1.user = none
    ∧ (bootstrap b (logout s).1).1.loading = false
    ∧ (bootstrap b (logout s).1).2 = [] := by
  obtain ⟨pt, ah, u, l⟩ := s
  refine ⟨rfl, rfl, rfl, rfl, rfl, ?_, rfl, rfl, rfl, rfl, rfl⟩
  intro h1 h2 h3
  simp_all [logout]

/-- C7 witness: logging out of the already-unauthenticated state changes
nothing. -/
theorem logout_spec_witness : (logout unauthState).1 = unauthState :=
  (logout_spec trivialBackend unauthState).2.2.2.2.2.1 rfl rfl rfl

/-- C8: none of the seven non-session flows changes any client state —
persisted credential, attached header, published profile and loading gate are
all preserved on success and on failure — and repeating `verifyResetToken`
yields the identical result and state. -/
theorem side_flows_frame (b : Backend) (s : ClientState) (ud em cd tk pw : String) :
    (register b ud s).2.1 = s
    ∧ (sendVerificationCode b em s).2.1 = s
    ∧ (verifyCode b em cd s).2.1 = s
    ∧ (signupWithVerification b ud s).2.1 = s
    ∧ (forgotPassword b em s).2.1 = s
    ∧ (resetPassword b tk pw s).2.1 = s
    ∧ (verifyResetToken b tk s).2.1 = s
    ∧ verifyResetToken b tk ((verifyResetToken b tk s).2.1) =
        verifyResetToken b tk s := by
  refine ⟨register_state b ud s, sendVerificationCode_state b em s,
    verifyCode_state b em cd s, signupWithVerification_state b ud s,
    forgotPassword_state b em s, resetPassword_state b tk pw s,
    verifyResetToken_state b tk s, ?_⟩
  rw [verifyResetToken_state]

/-- C9: the login submission is completely independent of the remember-me
flag — the `login` function binds only `(email, password)`, so two
submissions differing only in the flag produce the identical result, client
state and request trace. -/
theorem login_remember_independent (b : Backend) (e p : String) (r1 r2 : Bool)
    (s : ClientState) : loginSubmit b e p r1 s = loginSubmit b e p r2 s := rfl

/-- C10: outside a provider the context is the falsy `createContext()`
default and `useAuth` throws exactly
`useAuth must be used within an AuthProvider`; under a provider it returns
the published context value without throwing. -/
theorem useAuth_spec :
    useAuth none = HookOutcome.thrown "useAuth must be used within an AuthProvider"
    ∧ ∀ v : AuthContextValue, useAuth (some v) = HookOutcome.ret v :=
  ⟨rfl, fun _ => rfl⟩

end ChatPulse
